import Mathlib

/-!
Verification of the Tonnet-Browser process-supervision and validation layer.

The definitions below are a shallow embedding of the TypeScript sources:
  - `src/main/utils/validators.ts`   (validatePort, validateVerbosity)
  - `src/main/ipc/validation.ts`     (isValidNavigationUrl, isValidBagId, RateLimiter)
  - `src/main/storage/http-client.ts`(StorageHTTPClient)
  - `src/main/storage/daemon.ts`     (StorageManager)
  - `src/main/proxy/manager.ts`      (ProxyManager)
  - `src/main/settings/index.ts`     (isValidSettingsObject, loadSettings)

JavaScript numbers are modelled by `JSNum` (an integer, NaN, or an infinity:
only order comparisons matter to the embedded code, and NaN compares false to
everything, exactly as in JavaScript). Dynamically typed inputs are modelled by
`JSVal`. Parsed JSON documents are modelled by `JVal`; objects are association
lists assumed to have distinct keys, which is the normal form produced by
`JSON.parse`. Effects (file system, child processes, HTTP) are passed in as
explicit arguments, and performed writes are returned in the result.
-/

namespace Tonnet

/-- Model of a JavaScript number: an integer value, NaN, or an infinity.
Fractional values never reach the comparisons performed by the embedded code,
so the finite case carries an `Int`. -/
inductive JSNum
  | nan
  | posInf
  | negInf
  | fin (v : Int)
deriving DecidableEq, Repr

/-- JavaScript `<` on numbers: any comparison involving NaN is false. -/
def JSNum.lt : JSNum → JSNum → Bool
  | JSNum.nan, _ => false
  | _, JSNum.nan => false
  | JSNum.negInf, JSNum.negInf => false
  | JSNum.negInf, _ => true
  | _, JSNum.negInf => false
  | JSNum.posInf, _ => false
  | JSNum.fin _, JSNum.posInf => true
  | JSNum.fin a, JSNum.fin b => decide (a < b)

/-- Model of a dynamically typed JavaScript value, as far as the validators
inspect one (`typeof` discrimination only). -/
inductive JSVal
  | num (n : JSNum)
  | str (s : String)
  | boolean (b : Bool)
  | null
  | undef
deriving DecidableEq, Repr

/-- Embeds `validatePort` from `src/main/utils/validators.ts`:
`if (typeof port !== 'number' || port < 1024 || port > 65535) return defaultPort; return port`. -/
def validatePort (port : JSVal) (defaultPort : Int) : JSNum :=
  match port with
  | JSVal.num n =>
      if JSNum.lt n (JSNum.fin 1024) || JSNum.lt (JSNum.fin 65535) n then
        JSNum.fin defaultPort
      else
        n
  | _ => JSNum.fin defaultPort

/-- Embeds the character class `[a-fA-F0-9]` used by `isValidBagId`. -/
def isHexDigitChar (c : Char) : Bool :=
  ('a' ≤ c && c ≤ 'f') || ('A' ≤ c && c ≤ 'F') || ('0' ≤ c && c ≤ '9')

/-- Embeds `isValidBagId` from `src/main/ipc/validation.ts`:
`typeof bagId === 'string' && /^[a-fA-F0-9]{64}$/.test(bagId)`.
The function is total (it returns a Bool for every input and never throws). -/
def isValidBagId (v : JSVal) : Bool :=
  match v with
  | JSVal.str s => s.length == 64 && s.data.all isHexDigitChar
  | _ => false

/-- Raw bag record returned by the storage daemon HTTP API
(`BagInfo` in `src/main/storage/http-client.ts`). -/
structure BagInfo where
  bag_id : String
  description : String
  downloaded : Int
  size : Int
  download_speed : Int
  upload_speed : Int
  files_count : Int
  dir_name : String
  completed : Bool
  header_loaded : Bool
  info_loaded : Bool
  active : Bool
  seeding : Bool
  peers : Int
deriving DecidableEq, Repr

/-- Derived bag status (`StorageBag['status']` in `src/shared/types.ts`). -/
inductive BagStatus
  | downloading
  | seeding
  | paused
  | error
deriving DecidableEq, Repr

/-- Mapped bag record (`StorageBag` in `src/shared/types.ts`). -/
structure StorageBag where
  id : String
  name : String
  size : Int
  downloaded : Int
  uploadSpeed : Int
  downloadSpeed : Int
  peers : Int
  filesCount : Int
  status : BagStatus
deriving DecidableEq, Repr

namespace StorageManager

/-- Embeds `StorageManager.mapBagInfo` from `src/main/storage/daemon.ts`.
The status derivation mirrors the source exactly:
`let status = 'downloading'; if (!info.active) status = 'paused';
else if (info.completed && info.seeding) status = 'seeding';
else if (info.completed) status = 'seeding'`.
The name falls back through the JavaScript `||` chain, where only the empty
string is falsy for strings. -/
def mapBagInfo (info : BagInfo) : StorageBag :=
  let status :=
    if !info.active then BagStatus.paused
    else if info.completed && info.seeding then BagStatus.seeding
    else if info.completed then BagStatus.seeding
    else BagStatus.downloading
  { id := info.bag_id
    name :=
      if info.description ≠ "" then info.description
      else if info.dir_name ≠ "" then info.dir_name
      else "Bag " ++ info.bag_id.take 8 ++ "..."
    size := info.size
    downloaded := info.downloaded
    downloadSpeed := info.download_speed
    uploadSpeed := info.upload_speed
    peers := info.peers
    filesCount := info.files_count
    status := status }

end StorageManager

/-- Sliding-window rate limiter state (`RateLimiter` in
`src/main/ipc/validation.ts`): recorded call timestamps plus the construction
parameters. -/
structure RateLimiter where
  maxCalls : Nat
  windowMs : Int
  calls : List Int
deriving DecidableEq, Repr

/-- Embeds the `RateLimiter` constructor: `this.calls = []`. -/
def RateLimiter.create (maxCalls : Nat) (windowMs : Int) : RateLimiter :=
  { maxCalls := maxCalls, windowMs := windowMs, calls := [] }

/-- Embeds `RateLimiter.check`, with the current clock passed explicitly:
`this.calls = this.calls.filter(t => now - t < this.windowMs);
if (this.calls.length >= this.maxCalls) return false;
this.calls.push(now); return true`. -/
def RateLimiter.check (rl : RateLimiter) (now : Int) : Bool × RateLimiter :=
  let pruned := rl.calls.filter (fun t => decide (now - t < rl.windowMs))
  if rl.maxCalls ≤ pruned.length then
    (false, { rl with calls := pruned })
  else
    (true, { rl with calls := pruned ++ [now] })

/-- Embeds `RateLimiter.reset`: `this.calls = []`. -/
def RateLimiter.reset (rl : RateLimiter) : RateLimiter :=
  { rl with calls := [] }

/-- Runs `check` at the instant `now` a number of times in succession,
returning the final state. -/
def RateLimiter.checkN (rl : RateLimiter) (now : Int) : Nat → RateLimiter
  | 0 => rl
  | Nat.succ k => ((rl.checkN now k).check now).snd

/-- Outcome of the platform `fetch` call: a network-level failure (the fetch
promise rejecting), or an HTTP response with its `ok` flag, status code, and
body text. -/
structure HTTPResponse where
  ok : Bool
  status : Int
  text : String
deriving DecidableEq, Repr

namespace StorageHTTPClient

/-- Embeds the private `fetch<T>` helper of `StorageHTTPClient`
(`src/main/storage/http-client.ts`) up to the body-text stage:
a rejected network call propagates as an error; a non-ok response throws
`HTTP <status>: <text>`; otherwise the body text is returned. -/
def fetchText (netResult : Except String HTTPResponse) : Except String String :=
  match netResult with
  | Except.error e => Except.error e
  | Except.ok r =>
      if !r.ok then Except.error ("HTTP " ++ toString r.status ++ ": " ++ r.text)
      else Except.ok r.text

/-- Embeds `StorageHTTPClient.listBags`. The `JSON.parse` of the body is
passed in as `parseBags` (it may throw, modelled by `Except.error`, and the
`bags` field may be absent, modelled by `none`); an empty body deserializes to
`{}` and then `result.bags || []` yields the empty list. -/
def listBags (parseBags : String → Except String (Option (List BagInfo)))
    (netResult : Except String HTTPResponse) : Except String (List BagInfo) :=
  match fetchText netResult with
  | Except.error e => Except.error e
  | Except.ok text =>
      if text = "" then Except.ok []
      else
        match parseBags text with
        | Except.error e => Except.error e
        | Except.ok none => Except.ok []
        | Except.ok (some bags) => Except.ok bags

/-- Embeds `StorageHTTPClient.ping`:
`try { await this.listBags(); return true } catch { return false }`. -/
def ping (parseBags : String → Except String (Option (List BagInfo)))
    (netResult : Except String HTTPResponse) : Bool :=
  match listBags parseBags netResult with
  | Except.ok _ => true
  | Except.error _ => false

end StorageHTTPClient

/-- Model of a parsed JSON value (the result of `JSON.parse`). Objects are
association lists with distinct keys, the normal form `JSON.parse` produces. -/
inductive JVal
  | null
  | boolean (b : Bool)
  | num (v : Int)
  | str (s : String)
  | arr (elems : List JVal)
  | obj (fields : List (String × JVal))

/-- Looks a key up in an object's field list (property access on an object
whose keys are distinct); `none` models JavaScript `undefined`. -/
def JVal.lookup (fields : List (String × JVal)) (k : String) : Option JVal :=
  match fields with
  | [] => none
  | (k2, v) :: rest => if k2 = k then some v else JVal.lookup rest k

/-- `typeof v === 'number'` on a JSON value. -/
def JVal.isNumber : JVal → Bool
  | JVal.num _ => true
  | _ => false

/-- `typeof v === 'boolean'` on a JSON value. -/
def JVal.isBoolean : JVal → Bool
  | JVal.boolean _ => true
  | _ => false

/-- `typeof v === 'string'` on a JSON value. -/
def JVal.isString : JVal → Bool
  | JVal.str _ => true
  | _ => false

/-- `Array.isArray(v)` on a JSON value. -/
def JVal.isArray : JVal → Bool
  | JVal.arr _ => true
  | _ => false

/-- `typeof v === 'object' && v !== null && !Array.isArray(v)` on a JSON
value: the shape every settings category must have. -/
def JVal.isPlainObject : JVal → Bool
  | JVal.obj _ => true
  | _ => false

/-- JavaScript strict equality `v === s` between a possibly-undefined value
and a string literal: true exactly when `v` is that string. -/
def JVal.eqStr (v : Option JVal) (s : String) : Bool :=
  match v with
  | some (JVal.str t) => t == s
  | _ => false

/-- Whether the character list `s` starts with the character list `p`. -/
def seqStarts : List Char → List Char → Bool
  | _, [] => true
  | [], _ :: _ => false
  | c :: cs, d :: ds => c == d && seqStarts cs ds

/-- Whether the character list `s` contains the character list `p` as a
contiguous run. -/
def hasSeq : List Char → List Char → Bool
  | [], p => p.isEmpty
  | s@(_ :: rest), p => seqStarts s p || hasSeq rest p

/-- JavaScript `s.startsWith(p)` on strings. -/
def strStarts (s p : String) : Bool :=
  seqStarts s.data p.data

/-- JavaScript `s.includes(p)` on strings. -/
def strIncludes (s p : String) : Bool :=
  hasSeq s.data p.data

namespace Settings

/-- The known settings categories (`src/main/settings/index.ts`). -/
def categories : List String :=
  ["general", "network", "storage", "appearance", "privacy", "advanced"]

/-- One `if (cat.field !== undefined && typeof cat.field !== T) return false`
check from `isValidSettingsObject`: an absent field passes, a present field
must satisfy the type test. -/
def fieldTypeOk (fields : List (String × JVal)) (key : String)
    (typeOk : JVal → Bool) : Bool :=
  match JVal.lookup fields key with
  | none => true
  | some v => typeOk v

/-- The per-field checks `isValidSettingsObject` runs on the `network`
category. -/
def networkFieldsOk (nf : List (String × JVal)) : Bool :=
  fieldTypeOk nf "proxyPort" JVal.isNumber
    && fieldTypeOk nf "storagePort" JVal.isNumber
    && fieldTypeOk nf "autoConnect" JVal.isBoolean
    && fieldTypeOk nf "anonymousMode" JVal.isBoolean
    && fieldTypeOk nf "circuitRotation" JVal.isBoolean
    && fieldTypeOk nf "rotateInterval" JVal.isString

/-- The per-field check `isValidSettingsObject` runs on the `privacy`
category. -/
def privacyFieldsOk (pf : List (String × JVal)) : Bool :=
  fieldTypeOk pf "clearOnExit" JVal.isBoolean

/-- The theme check of `isValidSettingsObject`: a built-in theme name, an old
theme name, or a string starting with `custom:`. `Array.includes` on a
non-string is false, so a non-string theme is rejected. -/
def themeOk (v : JVal) : Bool :=
  match v with
  | JVal.str s =>
      ["resistance-dog", "utya-duck", "midnight-blue", "canard-yellow"].contains s
        || strStarts s "custom:"
  | _ => false

/-- The per-field checks `isValidSettingsObject` runs on the `appearance`
category. -/
def appearanceFieldsOk (af : List (String × JVal)) : Bool :=
  fieldTypeOk af "theme" themeOk
    && fieldTypeOk af "defaultZoom" JVal.isNumber
    && fieldTypeOk af "customThemes" JVal.isArray

/-- The `for (const key of Object.keys(settings))` loop of
`isValidSettingsObject`: unknown categories are tolerated, known categories
must be plain objects. -/
def categoryEntriesOk (fields : List (String × JVal)) : Bool :=
  fields.all (fun kv =>
    if categories.contains kv.fst then kv.snd.isPlainObject else true)

/-- Runs a category's field checks when the category is present (it is then a
plain object, the entries loop having already enforced that shape whenever the
whole validation can still succeed). -/
def categoryFieldsOk (fields : List (String × JVal)) (name : String)
    (check : List (String × JVal) → Bool) : Bool :=
  match JVal.lookup fields name with
  | some (JVal.obj cf) => check cf
  | _ => true

/-- Embeds `isValidSettingsObject` from `src/main/settings/index.ts`. The
source's early `return false`s are rewritten as a conjunction, which is
equivalent because every check is pure. -/
def isValidSettingsObject (v : JVal) : Bool :=
  match v with
  | JVal.obj fields =>
      categoryEntriesOk fields
        && categoryFieldsOk fields "network" networkFieldsOk
        && categoryFieldsOk fields "privacy" privacyFieldsOk
        && categoryFieldsOk fields "appearance" appearanceFieldsOk
  | _ => false

/-- Embeds `getDefaultSettings` (values from `src/shared/defaults.ts`).
`downloadPath` is the platform-specific path the main process computes from
the user-data directory. -/
def defaultSettings (downloadPath : String) : JVal :=
  JVal.obj
    [("general", JVal.obj
        [("homepage", JVal.str "ton://start"),
         ("restoreTabs", JVal.boolean false)]),
     ("network", JVal.obj
        [("proxyPort", JVal.num 8080),
         ("storagePort", JVal.num 5555),
         ("autoConnect", JVal.boolean false),
         ("connectionTimeout", JVal.num 30),
         ("syncCheckInterval", JVal.num 3000),
         ("anonymousMode", JVal.boolean false),
         ("circuitRotation", JVal.boolean true),
         ("rotateInterval", JVal.str "10m")]),
     ("storage", JVal.obj
        [("downloadPath", JVal.str downloadPath),
         ("pollingInterval", JVal.num 2000)]),
     ("appearance", JVal.obj
        [("theme", JVal.str "resistance-dog"),
         ("customThemes", JVal.arr []),
         ("defaultZoom", JVal.num 100),
         ("zoomMin", JVal.num 30),
         ("zoomMax", JVal.num 300),
         ("showBookmarksBar", JVal.boolean true),
         ("showStatusBar", JVal.boolean true)]),
     ("privacy", JVal.obj
        [("clearOnExit", JVal.boolean true)]),
     ("advanced", JVal.obj
        [("proxyVerbosity", JVal.num 2),
         ("storageVerbosity", JVal.num 2),
         ("syncTestDomain", JVal.str "tonnet-sync-check.ton")])]

/-- JavaScript object spread `{ ...a, ...b }`: keys of `a` keep their position
with `b`'s value when overridden, keys only in `b` follow. -/
def spreadMerge (a b : List (String × JVal)) : List (String × JVal) :=
  a.map (fun kv =>
      match JVal.lookup b kv.fst with
      | some v => (kv.fst, v)
      | none => kv)
    ++ b.filter (fun kv => (JVal.lookup a kv.fst).isNone)

/-- Reads a category of a settings object as a field list; an absent category
spreads as the empty object. -/
def catOf (v : JVal) (name : String) : List (String × JVal) :=
  match v with
  | JVal.obj fields =>
      match JVal.lookup fields name with
      | some (JVal.obj cf) => cf
      | _ => []
  | _ => []

/-- The category-by-category merge `loadSettings` performs on a validated
document: `{ general: {...defaults.general, ...loaded.general}, ... }`. -/
def mergeWithDefaults (defaults loaded : JVal) : JVal :=
  JVal.obj (categories.map (fun c =>
    (c, JVal.obj (spreadMerge (catOf defaults c) (catOf loaded c)))))

/-- JavaScript property assignment on an object: replaces the value of an
existing key in place, appends the key otherwise. -/
def setField (fields : List (String × JVal)) (k : String) (v : JVal) :
    List (String × JVal) :=
  match JVal.lookup fields k with
  | some _ => fields.map (fun kv => if kv.fst = k then (k, v) else kv)
  | none => fields ++ [(k, v)]

/-- Sets `settings.<cat>.<field> = v` on a settings object. -/
def setCatField (v : JVal) (cat field : String) (newVal : JVal) : JVal :=
  match v with
  | JVal.obj fields =>
      JVal.obj (fields.map (fun kv =>
        if kv.fst = cat then
          (kv.fst,
            match kv.snd with
            | JVal.obj cf => JVal.obj (setField cf field newVal)
            | other => other)
        else kv))
  | other => other

/-- Reads `settings.appearance.theme` of a settings object. -/
def appearanceTheme (v : JVal) : Option JVal :=
  JVal.lookup (catOf v "appearance") "theme"

/-- Result of one `loadSettings` call: the returned settings, the in-memory
cache afterwards, and the list of full settings objects handed to
`saveSettings` (each an attempted atomic write of the settings file), in
order. -/
structure LoadOutcome where
  result : JVal
  cache : Option JVal
  writes : List JVal

/-- Embeds `loadSettings` from `src/main/settings/index.ts`. The file system
is passed in: whether the settings file exists, and the combined outcome of
`readFileSync` + `JSON.parse` (`Except.error` when either throws). A cache hit
returns immediately. A missing file persists the defaults. A read/parse
failure falls back to defaults without writing. A document that fails
`isValidSettingsObject` falls back to defaults and persists them. A valid
document is merged over the defaults category by category, and the one-shot
theme migration rewrites old theme names and re-saves. -/
def loadSettings (cache : Option JVal) (fileExists : Bool)
    (readAndParse : Except String JVal) (downloadPath : String) : LoadOutcome :=
  match cache with
  | some c => { result := c, cache := some c, writes := [] }
  | none =>
    let defaults := defaultSettings downloadPath
    if !fileExists then
      { result := defaults, cache := some defaults, writes := [defaults] }
    else
      match readAndParse with
      | Except.error _ =>
          { result := defaults, cache := some defaults, writes := [] }
      | Except.ok parsed =>
          if !isValidSettingsObject parsed then
            { result := defaults, cache := some defaults, writes := [defaults] }
          else
            let merged := mergeWithDefaults defaults parsed
            if JVal.eqStr (appearanceTheme merged) "midnight-blue" then
              let m := setCatField merged "appearance" "theme" (JVal.str "resistance-dog")
              { result := m, cache := some m, writes := [m] }
            else if JVal.eqStr (appearanceTheme merged) "canard-yellow" then
              let m := setCatField merged "appearance" "theme" (JVal.str "utya-duck")
              { result := m, cache := some m, writes := [m] }
            else
              { result := merged, cache := some merged, writes := [] }

/-- The typed fields `isValidSettingsObject` checks inside known categories,
with the test each must pass when present. -/
def checkedFields : List (String × String × (JVal → Bool)) :=
  [("network", "proxyPort", JVal.isNumber),
   ("network", "storagePort", JVal.isNumber),
   ("network", "autoConnect", JVal.isBoolean),
   ("network", "anonymousMode", JVal.isBoolean),
   ("network", "circuitRotation", JVal.isBoolean),
   ("network", "rotateInterval", JVal.isString),
   ("privacy", "clearOnExit", JVal.isBoolean),
   ("appearance", "theme", themeOk),
   ("appearance", "defaultZoom", JVal.isNumber),
   ("appearance", "customThemes", JVal.isArray)]

end Settings

namespace URLModel

/-!
Model of the WHATWG `URL` constructor (the web platform API the source calls
as `new URL(urlToParse)`), restricted to what `isValidNavigationUrl` observes:
whether construction throws, and the resulting `protocol`. Scheme parsing,
the special-scheme split, authority/host/port validation for special schemes,
opaque-host validation for non-special `//` URLs, and opaque paths are
modelled; percent-encoding and host IDNA normalization are not, which only
affects inputs none of the theorems touch.
-/

/-- First character of a URL scheme: an ASCII alpha. -/
def isSchemeStart (c : Char) : Bool := c.isAlpha

/-- Subsequent characters of a URL scheme. -/
def isSchemeChar (c : Char) : Bool :=
  c.isAlphanum || c == '+' || c == '-' || c == '.'

/-- Splits a character list at its first `:`, returning the parts before and
after; `none` when there is no colon. -/
def splitAtColon : List Char → Option (List Char × List Char)
  | [] => none
  | c :: rest =>
      if c = ':' then some ([], rest)
      else
        match splitAtColon rest with
        | some (a, b) => some (c :: a, b)
        | none => none

/-- The WHATWG special schemes. -/
def specialSchemes : List String := ["ftp", "file", "http", "https", "ws", "wss"]

/-- Characters that end the authority section. -/
def isAuthorityEnd (c : Char) : Bool :=
  c == '/' || c == '\\' || c == '?' || c == '#'

/-- Forbidden host code points: a host containing one of these makes URL
parsing fail. -/
def isForbiddenHostChar (c : Char) : Bool :=
  c.val < 0x21 || c == '#' || c == '/' || c == ':' || c == '<' || c == '>'
    || c == '?' || c == '@' || c == '[' || c == '\\' || c == ']'
    || c == '^' || c == '|'

/-- A port string is valid when it is empty or all ASCII digits with value at
most 65535. -/
def portOk (p : List Char) : Bool :=
  p.isEmpty
    || (p.all Char.isDigit && decide (p.foldl (fun a c => a * 10 + (c.toNat - 48)) 0 ≤ 65535))

/-- Validates a `host:port` section (after userinfo removal). A bracketed
IPv6 host must close its bracket; otherwise the part before the first colon is
the host and the rest the port. `hostMayBeEmpty` is true for `file` and for
non-special schemes. -/
def hostPortOk (hp : List Char) (hostMayBeEmpty : Bool) : Bool :=
  match hp with
  | '[' :: rest =>
      match splitAtColon rest with
      | some (inside, port) => inside.contains ']' && portOk port
      | none => rest.contains ']'
  | _ =>
      match splitAtColon hp with
      | some (host, port) =>
          (hostMayBeEmpty || !host.isEmpty)
            && host.all (fun c => !isForbiddenHostChar c)
            && portOk port
      | none =>
          (hostMayBeEmpty || !hp.isEmpty)
            && hp.all (fun c => !isForbiddenHostChar c)

/-- Validates an authority section: the host and port after the last `@`
(anything before it is userinfo). -/
def authorityOk (auth : List Char) (hostMayBeEmpty : Bool) : Bool :=
  let hp :=
    if auth.contains '@' then
      ((auth.reverse.takeWhile (fun c => c ≠ '@')).reverse)
    else auth
  hostPortOk hp hostMayBeEmpty

/-- Model of `new URL(s).protocol`: `some <scheme>:` when construction
succeeds, `none` when it throws. -/
def urlProtocol (s : String) : Option String :=
  match splitAtColon s.data with
  | none => none
  | some (schemeChars, rest) =>
      match schemeChars with
      | [] => none
      | c0 :: cs =>
          if !(isSchemeStart c0 && cs.all isSchemeChar) then none
          else
            let scheme := String.mk ((c0 :: cs).map Char.toLower)
            let proto := scheme ++ ":"
            if scheme = "file" then
              -- file URLs: an optional `//` then a possibly-empty host.
              let afterSlashes := if seqStarts rest ['/', '/'] then rest.drop 2 else rest
              let auth := afterSlashes.takeWhile (fun c => !isAuthorityEnd c)
              if authorityOk auth true then some proto else none
            else if specialSchemes.contains scheme then
              -- special schemes: all leading slashes are skipped, then a
              -- non-empty host is required.
              let afterSlashes := rest.dropWhile (fun c => c == '/' || c == '\\')
              let auth := afterSlashes.takeWhile (fun c => !isAuthorityEnd c)
              if authorityOk auth false then some proto else none
            else
              -- non-special schemes: `//` introduces an opaque host,
              -- otherwise the rest is an opaque path and always parses.
              if seqStarts rest ['/', '/'] then
                let afterSlashes := rest.drop 2
                let auth := afterSlashes.takeWhile (fun c =>
                  !(c == '/' || c == '?' || c == '#'))
                if authorityOk auth true then some proto else none
              else some proto

end URLModel

/-- Result record of the URL and path validators:
`{ valid: boolean; error?: string }`. -/
structure ValidationResult where
  valid : Bool
  error : Option String
deriving DecidableEq, Repr

/-- The scheme allow-list of `src/main/ipc/validation.ts`. -/
def ALLOWED_SCHEMES : List String := ["http:", "https:", "ton:"]

/-- The dangerous-scheme deny-list of `src/main/ipc/validation.ts`. -/
def DANGEROUS_SCHEMES : List String := ["javascript:", "data:", "file:", "vbscript:"]

/-- Embeds `isValidNavigationUrl` from `src/main/ipc/validation.ts`: internal
`ton://` URLs pass untouched; other inputs get an `http://` prefix when they
contain no `://`; parsing failure yields the generic format error; a protocol
outside the allow-list yields `Blocked scheme: <protocol>`; the dangerous-
scheme branch follows the allow-list check, as in the source. -/
def isValidNavigationUrl (url : String) : ValidationResult :=
  if strStarts url "ton://" then { valid := true, error := none }
  else
    let urlToParse := if strIncludes url "://" then url else "http://" ++ url
    match URLModel.urlProtocol urlToParse with
    | none => { valid := false, error := some "Invalid URL format" }
    | some proto =>
        if !(ALLOWED_SCHEMES.contains proto) then
          { valid := false, error := some ("Blocked scheme: " ++ proto) }
        else if DANGEROUS_SCHEMES.contains proto then
          { valid := false, error := some ("Dangerous scheme: " ++ proto) }
        else { valid := true, error := none }

/-- Proxy status state machine (`ProxyStatus` in `src/main/proxy/manager.ts`). -/
inductive ProxyStatus
  | stopped
  | starting
  | syncing
  | connected
deriving DecidableEq, Repr

/-- In-memory state of a `ProxyManager` instance: the held child-process
handle (a pid, `none` when cleared), the captured port, the status, whether
the sync-check timer is armed, and the parsed circuit relays. -/
structure ProxyState where
  process : Option Nat
  port : JSNum
  status : ProxyStatus
  syncCheckActive : Bool
  circuitRelays : List String
deriving DecidableEq, Repr

/-- External events `ProxyManager.start` depends on: the handle `spawn`
returns and whether the `Proxy listening` stdout marker arrives before the
readiness timeout. -/
structure ProxyEnv where
  pid : Nat
  readyWithinTimeout : Bool
deriving DecidableEq, Repr

namespace ProxyManager

/-- Embeds `ProxyManager.start` as a state transition. A held process handle
rejects immediately with `Proxy already running`. Otherwise the port snapshot
is sanitized, the process is spawned and the status becomes `starting`; if
the readiness marker arrives in time the status becomes `syncing` and the
sync-check timer starts, else `start` rejects with the timeout error, leaving
the handle held and the status at `starting`, exactly as in the source. -/
def start (s : ProxyState) (settingsPort : JSVal) (env : ProxyEnv) :
    Except String Unit × ProxyState :=
  match s.process with
  | some _ => (Except.error "Proxy already running", s)
  | none =>
    let safePort := validatePort settingsPort 8080
    let s1 : ProxyState :=
      { s with process := some env.pid, port := safePort, status := ProxyStatus.starting }
    if env.readyWithinTimeout then
      (Except.ok (), { s1 with status := ProxyStatus.syncing, syncCheckActive := true })
    else
      (Except.error "Proxy failed to start within timeout", s1)

/-- Embeds `ProxyManager.stop`: the sync-check timer is always cancelled;
when a process is held it is killed, the handle and relays are cleared and
the status becomes `stopped`; otherwise nothing else happens. -/
def stop (s : ProxyState) : ProxyState :=
  let s1 := { s with syncCheckActive := false }
  match s1.process with
  | some _ =>
      { s1 with process := none, circuitRelays := [], status := ProxyStatus.stopped }
  | none => s1

end ProxyManager

/-- Detailed bag record (`BagDetails` in `src/main/storage/http-client.ts`). -/
structure BagDetails where
  bag_id : String
  description : String
  files : List (String × Int)
  peers : List (String × Int × Int)
  merkle_hash : String
  piece_size : Int
  path : String
  downloaded : Int
  size : Int
  active : Bool
  seeding : Bool
deriving DecidableEq, Repr

/-- In-memory state of a `StorageManager` instance: the held child-process
handle, the HTTP client (present from spawn time, carrying the API port),
`isRunning`, the captured port, and whether the bag-polling timer is armed. -/
structure StorageState where
  process : Option Nat
  client : Option JSNum
  isRunning : Bool
  port : JSNum
  polling : Bool
deriving DecidableEq, Repr

/-- External events `StorageManager.start` depends on: the handle `spawn`
returns and the outcome of each `ping` attempt of the readiness loop. -/
structure StorageEnv where
  pid : Nat
  pings : Nat → Bool

namespace StorageManager

/-- Embeds `StorageManager.waitForReady`: up to `maxAttempts` pings at a
fixed interval; true when some attempt succeeds, false when the retry budget
is exhausted (the source then throws). -/
def waitForReady (pings : Nat → Bool) (maxAttempts : Nat) : Bool :=
  (List.range maxAttempts).any pings

/-- Embeds `StorageManager.start` as a state transition. A held process
handle rejects immediately with `Storage daemon already running`. Otherwise
the port snapshot is sanitized (default 5555), the process is spawned and the
HTTP client created; if `waitForReady` succeeds (30 attempts) the manager
becomes running and polling starts, else `start` rejects with the not-ready
error, leaving the process handle and client set and `isRunning` false,
exactly as in the source. -/
def start (s : StorageState) (settingsPort : JSVal) (env : StorageEnv) :
    Except String Unit × StorageState :=
  match s.process with
  | some _ => (Except.error "Storage daemon already running", s)
  | none =>
    let safePort := validatePort settingsPort 5555
    let s1 : StorageState :=
      { s with process := some env.pid, port := safePort, client := some safePort }
    if waitForReady env.pings 30 then
      (Except.ok (), { s1 with isRunning := true, polling := true })
    else
      (Except.error "Storage daemon API did not become ready", s1)

/-- Embeds `StorageManager.stop`: polling always stops; when a process is
held it is killed and the handle, client and running flag are cleared. -/
def stop (s : StorageState) : StorageState :=
  let s1 := { s with polling := false }
  match s1.process with
  | some _ => { s1 with process := none, client := none, isRunning := false }
  | none => s1

/-- Embeds `StorageManager.listBags`: without a client it returns the empty
list; with one it maps the client's list result through `mapBagInfo`.
`clientList` is the outcome of `client.listBags()`. -/
def listBags (s : StorageState)
    (clientList : Except String (List BagInfo)) : Except String (List StorageBag) :=
  match s.client with
  | none => Except.ok []
  | some _ =>
      match clientList with
      | Except.error e => Except.error e
      | Except.ok bags => Except.ok (bags.map mapBagInfo)

/-- Embeds `StorageManager.addBag`: without a client it throws
`Storage daemon not running`; with one it forwards to the client and returns
the initial bag state. `clientAdd` is the outcome of `client.addBag(...)`. -/
def addBag (s : StorageState) (bagId : String)
    (clientAdd : Except String Unit) : Except String StorageBag :=
  match s.client with
  | none => Except.error "Storage daemon not running"
  | some _ =>
      match clientAdd with
      | Except.error e => Except.error e
      | Except.ok _ =>
          Except.ok
            { id := bagId
              name := "Bag " ++ bagId.take 8 ++ "..."
              size := 0, downloaded := 0, downloadSpeed := 0, uploadSpeed := 0
              peers := 0, filesCount := 0, status := BagStatus.downloading }

/-- Embeds `StorageManager.removeBag`: without a client it throws
`Storage daemon not running`; with one it returns `result.ok` of the client
call. -/
def removeBag (s : StorageState)
    (clientRemove : Except String Bool) : Except String Bool :=
  match s.client with
  | none => Except.error "Storage daemon not running"
  | some _ => clientRemove

/-- Embeds `StorageManager.pauseBag`: without a client it throws
`Storage daemon not running`; with one it returns `result.ok` of the client's
stop call. -/
def pauseBag (s : StorageState)
    (clientStop : Except String Bool) : Except String Bool :=
  match s.client with
  | none => Except.error "Storage daemon not running"
  | some _ => clientStop

/-- Embeds `StorageManager.getBagDetails`: without a client it throws
`Storage daemon not running`; with one it forwards the client call. -/
def getBagDetails (s : StorageState)
    (clientDetails : Except String BagDetails) : Except String BagDetails :=
  match s.client with
  | none => Except.error "Storage daemon not running"
  | some _ => clientDetails

end StorageManager

/-- C1: for every raw bag record, the derived status computed by
`StorageManager.mapBagInfo` follows the priority-ordered rule: not active
gives `paused` regardless of `completed`; active and completed gives
`seeding`; active and not completed gives `downloading`. -/
theorem mapBagInfo_status_derivation (info : BagInfo) :
    (info.active = false → (StorageManager.mapBagInfo info).status = BagStatus.paused)
    ∧ (info.active = true → info.completed = true →
        (StorageManager.mapBagInfo info).status = BagStatus.seeding)
    ∧ (info.active = true → info.completed = false →
        (StorageManager.mapBagInfo info).status = BagStatus.downloading) := by
  obtain ⟨bid, desc, dl, sz, ds, us, fc, dn, completed, hl, il, active, seeding, peers⟩ := info
  cases active <;> cases completed <;> cases seeding <;>
    simp [StorageManager.mapBagInfo]

/-- Witness for C1: a concrete active, not-completed bag maps to
`downloading`. -/
theorem mapBagInfo_status_derivation_witness :
    (StorageManager.mapBagInfo
      { bag_id := "a1b2c3d4", description := "demo", downloaded := 10, size := 100,
        download_speed := 5, upload_speed := 1, files_count := 2, dir_name := "d",
        completed := false, header_loaded := true, info_loaded := true,
        active := true, seeding := false, peers := 3 }).status
      = BagStatus.downloading :=
  (mapBagInfo_status_derivation _).2.2 rfl rfl

/-- C5 (failing input): `validatePort(NaN)` returns NaN itself, not the
documented default: `typeof NaN === 'number'`, and both range comparisons on
NaN are false, so the source's range guard does not fire and the invalid
value propagates. -/
theorem validatePort_nan_passthrough :
    validatePort (JSVal.num JSNum.nan) 8080 = JSNum.nan
    ∧ validatePort (JSVal.num JSNum.nan) 8080 ≠ JSNum.fin 8080
    ∧ validatePort (JSVal.num JSNum.nan) 5555 = JSNum.nan := by
  refine ⟨rfl, by decide, rfl⟩

/-- C6: `isValidBagId` is true exactly on strings of 64 ASCII hexadecimal
characters; every non-string input (null, undefined, numbers, booleans) and
every string of another length or character set yields false, and the
function is total, so it never throws. -/
theorem isValidBagId_spec (v : JSVal) :
    isValidBagId v = true ↔
      ∃ s, v = JSVal.str s ∧ s.length = 64
        ∧ ∀ c ∈ s.data, ('0' ≤ c ∧ c ≤ '9') ∨ ('a' ≤ c ∧ c ≤ 'f') ∨ ('A' ≤ c ∧ c ≤ 'F') := by
  cases v <;> simp [isValidBagId, isHexDigitChar, List.all_eq_true]
  intro _
  constructor <;> intro h c hc <;> have := h c hc <;> tauto

/-- C8: `StorageHTTPClient.ping` never throws and reports reachability: it is
true exactly when the underlying list call succeeds, and false whenever the
list call throws, whether because the network request itself failed (daemon
unreachable) or because the daemon answered with a non-success HTTP status. -/
theorem ping_reports_reachability
    (parseBags : String → Except String (Option (List BagInfo)))
    (netResult : Except String HTTPResponse) :
    (StorageHTTPClient.ping parseBags netResult = true ↔
      ∃ bags, StorageHTTPClient.listBags parseBags netResult = Except.ok bags)
    ∧ (∀ e, netResult = Except.error e →
        StorageHTTPClient.ping parseBags netResult = false)
    ∧ (∀ r, netResult = Except.ok r → r.ok = false →
        StorageHTTPClient.ping parseBags netResult = false) := by
  refine ⟨?_, ?_, ?_⟩
  · cases h : StorageHTTPClient.listBags parseBags netResult <;>
      simp [StorageHTTPClient.ping, h]
  · rintro e rfl
    simp [StorageHTTPClient.ping, StorageHTTPClient.listBags, StorageHTTPClient.fetchText]
  · rintro r rfl hok
    simp [StorageHTTPClient.ping, StorageHTTPClient.listBags, StorageHTTPClient.fetchText, hok]

/-- Witness for C8: with the daemon unreachable (network error) ping returns
false, and with a successful empty listing it returns true. -/
theorem ping_reports_reachability_witness :
    StorageHTTPClient.ping (fun _ => Except.ok none) (Except.error "ECONNREFUSED") = false
    ∧ StorageHTTPClient.ping (fun _ => Except.ok none)
        (Except.ok { ok := true, status := 200, text := "" }) = true := by
  constructor
  · exact (ping_reports_reachability (fun _ => Except.ok none)
      (Except.error "ECONNREFUSED")).2.1 "ECONNREFUSED" rfl
  · exact (ping_reports_reachability (fun _ => Except.ok none)
      (Except.ok { ok := true, status := 200, text := "" })).1.mpr ⟨[], rfl⟩

/-- C10: when no HTTP client is held (daemon not running), `listBags` returns
the empty list without throwing while `addBag`, `removeBag`, `pauseBag` and
`getBagDetails` all throw `Storage daemon not running`. -/
theorem storage_ops_without_client (s : StorageState) (h : s.client = none)
    (clientList : Except String (List BagInfo)) (bagId : String)
    (clientAdd : Except String Unit) (clientRemove clientStop : Except String Bool)
    (clientDetails : Except String BagDetails) :
    StorageManager.listBags s clientList = Except.ok []
    ∧ StorageManager.addBag s bagId clientAdd
        = Except.error "Storage daemon not running"
    ∧ StorageManager.removeBag s clientRemove
        = Except.error "Storage daemon not running"
    ∧ StorageManager.pauseBag s clientStop
        = Except.error "Storage daemon not running"
    ∧ StorageManager.getBagDetails s clientDetails
        = Except.error "Storage daemon not running" := by
  refine ⟨?_, ?_, ?_, ?_, ?_⟩ <;>
    simp [StorageManager.listBags, StorageManager.addBag, StorageManager.removeBag,
      StorageManager.pauseBag, StorageManager.getBagDetails, h]

/-- Witness for C10: the fresh stopped manager state behaves as claimed. -/
theorem storage_ops_without_client_witness :
    StorageManager.listBags
        { process := none, client := none, isRunning := false,
          port := JSNum.fin 0, polling := false }
        (Except.error "unreachable") = Except.ok []
    ∧ StorageManager.addBag
        { process := none, client := none, isRunning := false,
          port := JSNum.fin 0, polling := false }
        "ab" (Except.ok ()) = Except.error "Storage daemon not running" := by
  have h := storage_ops_without_client
    { process := none, client := none, isRunning := false,
      port := JSNum.fin 0, polling := false }
    rfl (Except.error "unreachable") "ab" (Except.ok ())
    (Except.ok true) (Except.ok true)
    (Except.error "unused")
  exact ⟨h.1, h.2.1⟩

/-- Checking below capacity at the instant all recorded timestamps share
accepts and appends one more copy of that timestamp. -/
theorem check_replicate_lt (n k : Nat) (w t0 : Int) (hw : 0 < w) (hk : k < n) :
    RateLimiter.check { maxCalls := n, windowMs := w, calls := List.replicate k t0 } t0
      = (true, { maxCalls := n, windowMs := w, calls := List.replicate (k + 1) t0 }) := by
  have hfilter : (List.replicate k t0).filter (fun t => decide (t0 - t < w))
      = List.replicate k t0 := by
    refine List.filter_eq_self.mpr (fun a ha => ?_)
    have := List.eq_of_mem_replicate ha
    subst this
    simp only [decide_eq_true_eq]
    omega
  simp only [RateLimiter.check, hfilter, List.length_replicate]
  rw [if_neg (by omega)]
  simp [List.replicate_succ']

/-- Checking at capacity at the instant all recorded timestamps share rejects
and leaves the recorded timestamps unchanged. -/
theorem check_replicate_full (n : Nat) (w t0 : Int) (hw : 0 < w) :
    RateLimiter.check { maxCalls := n, windowMs := w, calls := List.replicate n t0 } t0
      = (false, { maxCalls := n, windowMs := w, calls := List.replicate n t0 }) := by
  have hfilter : (List.replicate n t0).filter (fun t => decide (t0 - t < w))
      = List.replicate n t0 := by
    refine List.filter_eq_self.mpr (fun a ha => ?_)
    have := List.eq_of_mem_replicate ha
    subst this
    simp only [decide_eq_true_eq]
    omega
  simp only [RateLimiter.check, hfilter, List.length_replicate]
  rw [if_pos (Nat.le_refl n)]

/-- Checking more than a window after the recorded instant prunes every
timestamp and accepts. -/
theorem check_after_window (n : Nat) (w t0 t1 : Int) (hn : 1 ≤ n) (ht : t0 + w < t1) :
    RateLimiter.check { maxCalls := n, windowMs := w, calls := List.replicate n t0 } t1
      = (true, { maxCalls := n, windowMs := w, calls := [t1] }) := by
  have hfilter : (List.replicate n t0).filter (fun t => decide (t1 - t < w)) = [] := by
    refine List.filter_eq_nil_iff.mpr (fun a ha => ?_)
    have := List.eq_of_mem_replicate ha
    subst this
    simp only [decide_eq_true_eq]
    omega
  simp only [RateLimiter.check, hfilter, List.length_nil]
  rw [if_neg (by omega)]
  simp

/-- After `k ≤ n` accepted checks at the same instant, a fresh rate limiter
holds exactly `k` copies of that timestamp. -/
theorem checkN_same_instant (n : Nat) (w t0 : Int) (hw : 0 < w) :
    ∀ k, k ≤ n → (RateLimiter.create n w).checkN t0 k
      = { maxCalls := n, windowMs := w, calls := List.replicate k t0 } := by
  intro k
  induction k with
  | zero => intro _; rfl
  | succ k ih =>
      intro hk
      have hkn : k < n := Nat.lt_of_succ_le hk
      rw [RateLimiter.checkN, ih (Nat.le_of_lt hkn), check_replicate_lt n k w t0 hw hkn]

/-- C7: a fresh `RateLimiter(n, w)` with `n ≥ 1` and `w > 0` accepts each of
the first `n` checks made at one instant `t0` (recording a timestamp each
time), rejects the `(n+1)`th check at that instant without recording it,
accepts again at any instant more than `w` milliseconds later, and `reset`
clears all history immediately. -/
theorem rateLimiter_window (n : Nat) (w t0 t1 : Int)
    (hn : 1 ≤ n) (hw : 0 < w) (ht : t0 + w < t1) :
    (∀ k, k < n → (((RateLimiter.create n w).checkN t0 k).check t0).fst = true)
    ∧ (((RateLimiter.create n w).checkN t0 n).check t0).fst = false
    ∧ (((RateLimiter.create n w).checkN t0 n).check t0).snd.calls
        = ((RateLimiter.create n w).checkN t0 n).calls
    ∧ ((((RateLimiter.create n w).checkN t0 n).check t0).snd.check t1).fst = true
    ∧ (((RateLimiter.create n w).checkN t0 n).check t0).snd.reset.calls = [] := by
  have hfull := checkN_same_instant n w t0 hw n (Nat.le_refl n)
  refine ⟨?_, ?_, ?_, ?_, ?_⟩
  · intro k hk
    rw [checkN_same_instant n w t0 hw k (Nat.le_of_lt hk),
      check_replicate_lt n k w t0 hw hk]
  · rw [hfull, check_replicate_full n w t0 hw]
  · rw [hfull, check_replicate_full n w t0 hw]
  · rw [hfull, check_replicate_full n w t0 hw]
    simp [check_after_window n w t0 t1 hn ht]
  · rw [hfull, check_replicate_full n w t0 hw]
    rfl

/-- Witness for C7: with limit 2 and a 1000 ms window, two checks at instant
0 pass, the third fails, and a check at instant 1001 passes again. -/
theorem rateLimiter_window_witness :
    (((RateLimiter.create 2 1000).checkN 0 0).check 0).fst = true
    ∧ (((RateLimiter.create 2 1000).checkN 0 1).check 0).fst = true
    ∧ (((RateLimiter.create 2 1000).checkN 0 2).check 0).fst = false
    ∧ ((((RateLimiter.create 2 1000).checkN 0 2).check 0).snd.check 1001).fst = true := by
  have h := rateLimiter_window 2 1000 0 1001 (by decide) (by decide) (by decide)
  exact ⟨h.1 0 (by decide), h.1 1 (by decide), h.2.1, h.2.2.2.1⟩

/-- C9: for both managers, a `start()` that rejects because readiness timed
out (proxy) or the ping retry budget was exhausted (storage) leaves the
child-process handle held while never reporting a ready or running state, so
every subsequent `start()` rejects with the already-running error; only after
`stop()` does `start()` stop rejecting with that error. -/
theorem start_timeout_keeps_handle
    (ps : ProxyState) (ss : StorageState) (pport sport : JSVal)
    (penv penv2 : ProxyEnv) (senv senv2 : StorageEnv)
    (hp : ps.process = none) (hs : ss.process = none) (hrun : ss.isRunning = false)
    (hpto : penv.readyWithinTimeout = false)
    (hsto : ∀ i, i < 30 → senv.pings i = false) :
    (ProxyManager.start ps pport penv).fst
        = Except.error "Proxy failed to start within timeout"
    ∧ (ProxyManager.start ps pport penv).snd.process = some penv.pid
    ∧ (ProxyManager.start ps pport penv).snd.status = ProxyStatus.starting
    ∧ (ProxyManager.start (ProxyManager.start ps pport penv).snd pport penv2).fst
        = Except.error "Proxy already running"
    ∧ (ProxyManager.start
        (ProxyManager.stop (ProxyManager.start ps pport penv).snd) pport penv2).fst
        ≠ Except.error "Proxy already running"
    ∧ (StorageManager.start ss sport senv).fst
        = Except.error "Storage daemon API did not become ready"
    ∧ (StorageManager.start ss sport senv).snd.process = some senv.pid
    ∧ (StorageManager.start ss sport senv).snd.isRunning = false
    ∧ (StorageManager.start (StorageManager.start ss sport senv).snd sport senv2).fst
        = Except.error "Storage daemon already running"
    ∧ (StorageManager.start
        (StorageManager.stop (StorageManager.start ss sport senv).snd) sport senv2).fst
        ≠ Except.error "Storage daemon already running" := by
  have hready : StorageManager.waitForReady senv.pings 30 = false := by
    rw [StorageManager.waitForReady]
    rw [Bool.eq_false_iff]
    intro hany
    rcases List.any_eq_true.mp hany with ⟨i, hi, hpi⟩
    rw [hsto i (List.mem_range.mp hi)] at hpi
    exact Bool.false_ne_true hpi
  refine ⟨?_, ?_, ?_, ?_, ?_, ?_, ?_, ?_, ?_, ?_⟩
  · simp [ProxyManager.start, hp, hpto]
  · simp [ProxyManager.start, hp, hpto]
  · simp [ProxyManager.start, hp, hpto]
  · simp [ProxyManager.start, hp, hpto]
  · simp only [ProxyManager.start, hp, hpto]
    cases hb : penv2.readyWithinTimeout <;>
      simp [ProxyManager.start, ProxyManager.stop, hb]
  · simp [StorageManager.start, hs, hready]
  · simp [StorageManager.start, hs, hready]
  · simp [StorageManager.start, hs, hready, hrun]
  · simp [StorageManager.start, hs, hready]
  · simp only [StorageManager.start, hs, hready]
    cases hb : StorageManager.waitForReady senv2.pings 30 <;>
      simp [StorageManager.start, StorageManager.stop, hb]

/-- Witness for C9: concrete idle managers, a proxy environment whose marker
never arrives, and a storage environment whose pings all fail. -/
theorem start_timeout_keeps_handle_witness :
    (ProxyManager.start
      (ProxyManager.start
        { process := none, port := JSNum.fin 0, status := ProxyStatus.stopped,
          syncCheckActive := false, circuitRelays := [] }
        (JSVal.num (JSNum.fin 8080)) { pid := 1, readyWithinTimeout := false }).snd
      (JSVal.num (JSNum.fin 8080)) { pid := 2, readyWithinTimeout := true }).fst
      = Except.error "Proxy already running"
    ∧ (StorageManager.start
      (StorageManager.start
        { process := none, client := none, isRunning := false,
          port := JSNum.fin 0, polling := false }
        (JSVal.num (JSNum.fin 5555)) { pid := 3, pings := fun _ => false }).snd
      (JSVal.num (JSNum.fin 5555)) { pid := 4, pings := fun _ => true }).fst
      = Except.error "Storage daemon already running" := by
  have h := start_timeout_keeps_handle
    { process := none, port := JSNum.fin 0, status := ProxyStatus.stopped,
      syncCheckActive := false, circuitRelays := [] }
    { process := none, client := none, isRunning := false,
      port := JSNum.fin 0, polling := false }
    (JSVal.num (JSNum.fin 8080)) (JSVal.num (JSNum.fin 5555))
    { pid := 1, readyWithinTimeout := false } { pid := 2, readyWithinTimeout := true }
    { pid := 3, pings := fun _ => false } { pid := 4, pings := fun _ => true }
    rfl rfl rfl rfl (fun _ _ => rfl)
  exact ⟨h.2.2.2.1, h.2.2.2.2.2.2.2.2.1⟩

/-- C2: any checked field of a known category carrying the wrong type makes
`isValidSettingsObject` reject the entire document, and a fresh `load()` of
that document then returns the full compiled-in defaults for every category,
not just the offending one. -/
theorem wrong_typed_field_rejects_document
    (fields cf : List (String × JVal)) (cat field : String)
    (check : JVal → Bool) (v : JVal)
    (hmem : (cat, field, check) ∈ Settings.checkedFields)
    (hcat : JVal.lookup fields cat = some (JVal.obj cf))
    (hfield : JVal.lookup cf field = some v)
    (hty : check v = false) :
    Settings.isValidSettingsObject (JVal.obj fields) = false
    ∧ ∀ dp, (Settings.loadSettings none true (Except.ok (JVal.obj fields)) dp).result
        = Settings.defaultSettings dp := by
  have hinvalid : Settings.isValidSettingsObject (JVal.obj fields) = false := by
    simp only [Settings.checkedFields, List.mem_cons, List.not_mem_nil, or_false] at hmem
    rcases hmem with h|h|h|h|h|h|h|h|h|h <;>
      (simp only [Prod.mk.injEq] at h; obtain ⟨rfl, rfl, rfl⟩ := h) <;>
      simp [Settings.isValidSettingsObject, Settings.categoryFieldsOk, hcat,
        Settings.networkFieldsOk, Settings.privacyFieldsOk, Settings.appearanceFieldsOk,
        Settings.fieldTypeOk, hfield, hty]
  refine ⟨hinvalid, fun dp => ?_⟩
  simp [Settings.loadSettings, hinvalid]

/-- Witness for C2: a document whose `network.proxyPort` is the string
`"not-a-number"` is rejected whole and a fresh load yields the defaults. -/
theorem wrong_typed_field_rejects_document_witness :
    Settings.isValidSettingsObject
      (JVal.obj [("network", JVal.obj [("proxyPort", JVal.str "not-a-number")])]) = false
    ∧ (Settings.loadSettings none true
        (Except.ok (JVal.obj [("network", JVal.obj [("proxyPort", JVal.str "not-a-number")])]))
        "/data/storage").result
      = Settings.defaultSettings "/data/storage" := by
  have h := wrong_typed_field_rejects_document
    [("network", JVal.obj [("proxyPort", JVal.str "not-a-number")])]
    [("proxyPort", JVal.str "not-a-number")]
    "network" "proxyPort" JVal.isNumber (JVal.str "not-a-number")
    (by simp [Settings.checkedFields]) (by simp [JVal.lookup]) (by simp [JVal.lookup]) rfl
  exact ⟨h.1, h.2 "/data/storage"⟩

/-- Counterexample for C3: on a settings file that exists and fails
structural validation, `loadSettings` does write to the settings file (it
persists the defaults over the bad file), contrary to the claim that both
failure paths leave the file untouched. -/
theorem loadSettings_invalid_structure_writes :
    (Settings.loadSettings none true
        (Except.ok (JVal.obj [("network", JVal.obj [("proxyPort", JVal.str "not-a-number")])]))
        "/data/storage").writes ≠ [] := by
  have h : (Settings.loadSettings none true
      (Except.ok (JVal.obj [("network", JVal.obj [("proxyPort", JVal.str "not-a-number")])]))
      "/data/storage").writes = [Settings.defaultSettings "/data/storage"] := rfl
  simp [h]

/-- C3 (amended): a fresh `load()` on an existing file whose read or parse
throws falls back to defaults without writing the settings file, while a
file that parses but fails structural validation makes `load()` fall back to
defaults and persist them, overwriting the bad file; the file-absent path
also persists the defaults. -/
theorem loadSettings_persistence_policy (dp e : String) (v : JVal)
    (hinvalid : Settings.isValidSettingsObject v = false) :
    (Settings.loadSettings none true (Except.error e) dp).writes = []
    ∧ (Settings.loadSettings none true (Except.error e) dp).result
        = Settings.defaultSettings dp
    ∧ (Settings.loadSettings none true (Except.ok v) dp).writes
        = [Settings.defaultSettings dp]
    ∧ (Settings.loadSettings none true (Except.ok v) dp).result
        = Settings.defaultSettings dp
    ∧ (Settings.loadSettings none false (Except.error e) dp).writes
        = [Settings.defaultSettings dp] := by
  refine ⟨?_, ?_, ?_, ?_, ?_⟩ <;> simp [Settings.loadSettings, hinvalid]

/-- Witness for C3's amended claim, at the parse-error input `{ invalid`
and the invalid document with a string `network.proxyPort`. -/
theorem loadSettings_persistence_policy_witness :
    (Settings.loadSettings none true (Except.error "SyntaxError") "/data/storage").writes = []
    ∧ (Settings.loadSettings none true
        (Except.ok (JVal.obj [("network", JVal.obj [("proxyPort", JVal.str "not-a-number")])]))
        "/data/storage").writes
      = [Settings.defaultSettings "/data/storage"] := by
  have h := loadSettings_persistence_policy "/data/storage" "SyntaxError"
    (JVal.obj [("network", JVal.obj [("proxyPort", JVal.str "not-a-number")])]) rfl
  exact ⟨h.1, h.2.2.1⟩

/-- Counterexample for C4: the spec's own example input
`javascript:alert(1)` contains no `://`, so the source prefixes it with
`http://`; the URL constructor then throws (the would-be port `alert(1)` is
not numeric), and the result is the generic `Invalid URL format` error,
which does not mention `javascript:`. -/
theorem javascript_url_generic_error :
    isValidNavigationUrl "javascript:alert(1)"
      = { valid := false, error := some "Invalid URL format" }
    ∧ strIncludes "Invalid URL format" "javascript:" = false := by
  exact ⟨rfl, rfl⟩

/-- C4 (amended): every input containing `://` that parses to a URL with a
dangerous scheme (javascript:, data:, file:, vbscript:) is rejected with an
error that names the scheme (`Blocked scheme: <scheme>`, from the allow-list
check that precedes the never-reached dangerous-scheme branch); dangerous
inputs without `://`, such as `javascript:alert(1)`, are instead rejected
with the generic format error after `http://` prefixing makes them
unparseable. -/
theorem dangerous_scheme_error_names_scheme (url proto : String)
    (hton : strStarts url "ton://" = false)
    (hinc : strIncludes url "://" = true)
    (hproto : URLModel.urlProtocol url = some proto)
    (hdanger : DANGEROUS_SCHEMES.contains proto = true) :
    isValidNavigationUrl url
      = { valid := false, error := some ("Blocked scheme: " ++ proto) }
    ∧ strIncludes ("Blocked scheme: " ++ proto) proto = true := by
  have hcases : proto = "javascript:" ∨ proto = "data:"
      ∨ proto = "file:" ∨ proto = "vbscript:" := by
    simpa [DANGEROUS_SCHEMES] using hdanger
  rcases hcases with rfl | rfl | rfl | rfl <;>
    exact ⟨by simp [isValidNavigationUrl, hton, hinc, hproto, ALLOWED_SCHEMES,
      DANGEROUS_SCHEMES], by decide⟩

/-- Witness for C4's amended claim: `javascript://x` and `file:///etc/passwd`
parse with their dangerous schemes and are rejected with errors naming them. -/
theorem dangerous_scheme_error_names_scheme_witness :
    isValidNavigationUrl "javascript://x"
      = { valid := false, error := some "Blocked scheme: javascript:" }
    ∧ isValidNavigationUrl "file:///etc/passwd"
      = { valid := false, error := some "Blocked scheme: file:" } := by
  constructor
  · exact (dangerous_scheme_error_names_scheme "javascript://x" "javascript:"
      rfl rfl rfl rfl).1
  · exact (dangerous_scheme_error_names_scheme "file:///etc/passwd" "file:"
      rfl rfl rfl rfl).1

end Tonnet
